import Mathlib

/-!
Verification development for the Vixen Dio Pro OpenROAD synthesis driver
(`scripts/vixen_synthesis.py`).

The script is a thin process orchestrator: it creates output directories,
probes for required executables, renders a fixed TCL template with
substituted paths, runs the external tool as a subprocess with its combined
output redirected to a log file, and prints a textual summary based on the
existence and superficial content of report files.

We embed it shallowly:

* the filesystem is a pair of finite maps (existing directories, files with
  their text contents), with `mkdir(exist_ok=True)` and `open(..., 'w')`
  modelled faithfully (a missing parent directory is an error, opening for
  write truncates);
* paths are lists of segments, mirroring `pathlib.Path`'s `/` operator;
* the console is a list of printed lines, in order;
* the outside world (subprocess execution via `subprocess.run`, and the
  rendering of the elapsed wall-clock duration) is a parameter: a command
  either exits with a code and some captured output, or raises an
  exception other than `CalledProcessError` (an `OSError` while spawning,
  for instance);
* Python exceptions that the script does not catch are `Except.error`
  values threaded through every operation.

Note a quirk of the source reproduced faithfully here: the Python file
writes `"\\n"` inside ordinary (non-raw) string literals, so the program
prints a literal backslash followed by `n`, not a newline; our message
strings reproduce those two characters.
-/

namespace Vixen

/-- A filesystem path, as the list of its segments (mirroring
`pathlib.Path`, where `p / "x"` appends one segment). -/
abbrev FPath := List String

/-- Errors that can escape an operation: uncaught Python exceptions.
`subprocess.CalledProcessError` never appears here because the script
always catches it. -/
inductive PyErr where
  | fileNotFound  -- OSError raised by `open` / `mkdir` on a missing parent
  | osError       -- error raised while spawning or waiting on a subprocess
deriving DecidableEq, Repr

/-- The filesystem: the set of existing directories and the files with
their text contents. -/
structure FS where
  dirs : List FPath
  files : List (FPath × String)
deriving DecidableEq, Repr

/-- Does directory `p` exist? -/
def FS.dirExists (fs : FS) (p : FPath) : Bool := fs.dirs.contains p

/-- Content of file `p`, when it exists. -/
def FS.fileContent (fs : FS) (p : FPath) : Option String :=
  (fs.files.find? (fun e => e.1 = p)).map (fun e => e.2)

/-- Does file `p` exist (`Path.exists`)? -/
def FS.fileExists (fs : FS) (p : FPath) : Bool := (fs.fileContent p).isSome

/-- Set the content of file `p` (creating or replacing it). -/
def FS.writeFile (fs : FS) (p : FPath) (c : String) : FS :=
  { fs with files := (p, c) :: fs.files.filter (fun e => ¬(e.1 = p)) }

/-- `Path.mkdir(exist_ok=True)`: succeeds if the directory already exists,
creates it when its parent exists, and otherwise raises (no `parents=True`
in the source). -/
def FS.mkdirExistOk (fs : FS) (p : FPath) : Except PyErr FS :=
  if fs.dirExists p then .ok fs
  else if fs.dirExists p.dropLast then .ok { fs with dirs := p :: fs.dirs }
  else .error .fileNotFound

/-- `open(p, 'w')` followed by writing `c`: fails when the enclosing
directory does not exist; truncates any previous content (the final
content is exactly `c`, never an append). -/
def FS.openWrite (fs : FS) (p : FPath) (c : String) : Except PyErr FS :=
  if fs.dirExists p.dropLast then .ok (fs.writeFile p c)
  else .error .fileNotFound

/-- Outcome of one `subprocess.run` call: either the process ran to an
exit code, with `output` the combined stdout/stderr text it produced, or
an exception other than `CalledProcessError` was raised (e.g. an `OSError`
while spawning). -/
inductive ProcResult where
  | exit (code : Nat) (output : String)
  | raise
deriving DecidableEq, Repr

/-- The outside world: what each shell command does when run, and the
rendering of the elapsed duration (`f"{duration:.2f}"`), which we keep
abstract rather than model floating point. -/
structure World where
  run : String → ProcResult
  durStr : String

/-- Program state threaded through the orchestrator: the filesystem and
the console lines printed so far, in order. -/
structure St where
  fs : FS
  out : List String
deriving DecidableEq, Repr

/-- `print(s)`: append one console line. -/
def St.print (st : St) (s : String) : St := { st with out := st.out ++ [s] }

/-- Render a path the way f-string interpolation of a `Path` does:
segments joined by `/` (an absolute path has `""` as first segment). -/
def pathStr (p : FPath) : String := String.intercalate "/" p

/-- The string `"=" * 70`. -/
def eqLine : String := String.mk (List.replicate 70 '=')

/-- The orchestrator (`VixenSynthesisFlow`), holding the project root; the
four path attributes computed in `__init__` are derived below. In the
source the root is `Path(__file__).parent.parent`; we keep it as a
parameter so properties can quantify over it. -/
structure VixenSynthesisFlow where
  project_root : FPath
deriving DecidableEq, Repr

/-- `self.config_file = self.project_root / "config" / "openroad_config.tcl"`. -/
def VixenSynthesisFlow.config_file (f : VixenSynthesisFlow) : FPath :=
  f.project_root ++ ["config", "openroad_config.tcl"]

/-- `self.results_dir = self.project_root / "results"`. -/
def VixenSynthesisFlow.results_dir (f : VixenSynthesisFlow) : FPath :=
  f.project_root ++ ["results"]

/-- `self.reports_dir = self.project_root / "reports"`. -/
def VixenSynthesisFlow.reports_dir (f : VixenSynthesisFlow) : FPath :=
  f.project_root ++ ["reports"]

/-- `self.logs_dir = self.project_root / "logs"`. -/
def VixenSynthesisFlow.logs_dir (f : VixenSynthesisFlow) : FPath :=
  f.project_root ++ ["logs"]

/-- `VixenSynthesisFlow.__init__`: compute the path attributes and run
`dir_path.mkdir(exist_ok=True)` for `results_dir`, `reports_dir`,
`logs_dir` (and for no other path). -/
def initFlow (root : FPath) (fs : FS) : Except PyErr (VixenSynthesisFlow × FS) :=
  let flow : VixenSynthesisFlow := ⟨root⟩
  match fs.mkdirExistOk flow.results_dir with
  | .error e => .error e
  | .ok fs =>
    match fs.mkdirExistOk flow.reports_dir with
    | .error e => .error e
    | .ok fs =>
      match fs.mkdirExistOk flow.logs_dir with
      | .error e => .error e
      | .ok fs => .ok (flow, fs)

/-- `run_command(command, log_file, cwd=None)`: print the `Running:` line;
with a log file, open `logs_dir/log_file` for writing (truncating — an
uncaught exception if `logs_dir` is missing), run the subprocess with
stdout/stderr redirected into it, and return `returncode == 0`;
`subprocess.CalledProcessError` (a nonzero exit under `check=True`) is
caught, printed and turned into `False`, while any other exception
propagates. Without a log file, the same minus the file handling. -/
def run_command (flow : VixenSynthesisFlow) (w : World) (command : String)
    (log_file : Option String) (st : St) : Except PyErr (St × Bool) :=
  let st := st.print ("Running: " ++ command)
  match log_file with
  | some name =>
    let log_path := flow.logs_dir ++ [name]
    match st.fs.openWrite log_path "" with
    | .error e => .error e
    | .ok fs1 =>
      match w.run command with
      | .raise => .error .osError
      | .exit code output =>
        let fs2 := fs1.writeFile log_path output
        if code = 0 then .ok ({ fs := fs2, out := st.out }, true)
        else .ok ({ fs := fs2,
                    out := st.out ++
                      ["Error: Command failed with return code " ++ toString code] },
                  false)
  | none =>
    match w.run command with
    | .raise => .error .osError
    | .exit code _ =>
      if code = 0 then .ok (st, true)
      else .ok (st.print ("Error: Command failed with return code " ++ toString code),
                false)

/-- The fixed required-tools list of `check_prerequisites`. -/
def requiredTools : List String := ["openroad", "yosys", "klayout"]

/-- Does `tool` resolve on the search path, i.e. does `which tool` exit 0? -/
def resolves (w : World) (tool : String) : Bool :=
  match w.run ("which " ++ tool) with
  | .exit 0 _ => true
  | _ => false

/-- The `for tool in tools` loop of `check_prerequisites`: probe each tool
with `run_command(f"which {tool}", log_file=None)` and collect the missing
ones in order. -/
def probeTools (flow : VixenSynthesisFlow) (w : World) :
    List String → St → Except PyErr (St × List String)
  | [], st => .ok (st, [])
  | t :: ts, st =>
    match run_command flow w ("which " ++ t) none st with
    | .error e => .error e
    | .ok (st, ok) =>
      match probeTools flow w ts st with
      | .error e => .error e
      | .ok (st, missing) => .ok (st, if ok then missing else t :: missing)

/-- `check_prerequisites()`: probe every required tool; if any is missing,
print the missing names (comma-joined) and return `False`, else `True`. -/
def check_prerequisites (flow : VixenSynthesisFlow) (w : World) (st : St) :
    Except PyErr (St × Bool) :=
  match probeTools flow w requiredTools st with
  | .error e => .error e
  | .ok (st, missing) =>
    if missing.isEmpty then .ok (st, true)
    else
      .ok (((st.print
        ("Error: Missing required tools: " ++ String.intercalate ", " missing)).print
        "Please install OpenROAD and required dependencies"), false)

/-- Is `pat` a contiguous substring of the character list (Python's
`pat in s`)? -/
def listContainsSub (pat : List Char) : List Char → Bool
  | [] => pat.isEmpty
  | c :: l => pat.isPrefixOf (c :: l) || listContainsSub pat l

/-- Python's substring test `pat in t`. -/
def strContainsSub (t pat : String) : Bool := listContainsSub pat.data t.data

/-- `str.lower()` (ASCII case folding suffices for the `"slack"` probe). -/
def lowerStr (s : String) : String := String.map Char.toLower s

/-- Number of (possibly overlapping) occurrences of `pat` in the list:
one per position where `pat` matches. -/
def countOccs (pat : List Char) : List Char → Nat
  | [] => 0
  | c :: l => (if pat.isPrefixOf (c :: l) then 1 else 0) + countOccs pat l

/-- Number of occurrences of `pat` in `t`. -/
def strCount (t pat : String) : Nat := countOccs pat.data t.data

/-- Fixed template text before the `{self.config_file}` substitution. -/
def tclT0 : String :=
  "\n" ++
  "# " ++ String.mk (List.replicate 77 '=') ++ "\n" ++
  "# Vixen Dio Pro - OpenROAD Synthesis Script\n" ++
  "# " ++ String.mk (List.replicate 77 '=') ++ "\n" ++
  "\n" ++
  "# Load configuration\n" ++
  "source "

/-- Fixed template text between the config-file and `results_dir`
substitutions. -/
def tclT1 : String :=
  "\n\n# Set up directories\nset results_dir \""

/-- Fixed template text between the `results_dir` and `reports_dir`
substitutions. -/
def tclT2 : String :=
  "\"\nset reports_dir \""

/-- Fixed template text between the `reports_dir` and `logs_dir`
substitutions. -/
def tclT3 : String :=
  "\"\nset logs_dir \""

/-- First quarter of the fixed template text after the `logs_dir` substitution. -/
def tclT4a : String :=
  "\"\n" ++
  "\n" ++
  "# Read liberty files\n" ++
  "foreach lib_file $LIB_FILES \x7b\n" ++
  "    if \x7b[file exists $lib_file]\x7d \x7b\n" ++
  "        read_liberty $lib_file\n" ++
  "    \x7d else \x7b\n" ++
  "        puts \"Warning: Liberty file $lib_file not found\"\n" ++
  "    \x7d\n" ++
  "\x7d\n" ++
  "\n" ++
  "# Read LEF files  \n" ++
  "foreach lef_file $LEF_FILES \x7b\n" ++
  "    if \x7b[file exists $lef_file]\x7d \x7b\n" ++
  "        read_lef $lef_file\n" ++
  "    \x7d else \x7b\n" ++
  "        puts \"Warning: LEF file $lef_file not found\"\n" ++
  "    \x7d\n" ++
  "\x7d\n" ++
  "\n" ++
  "# Read Verilog files\n" ++
  "foreach verilog_file $VERILOG_FILES \x7b\n" ++
  "    if \x7b[file exists $verilog_file]\x7d \x7b\n" ++
  "        read_verilog $verilog_file\n" ++
  "    \x7d else \x7b\n" ++
  "        puts \"Error: Verilog file $verilog_file not found\"\n" ++
  "        exit 1\n" ++
  "    \x7d\n" ++
  "\x7d\n" ++
  "\n" ++
  "# Link design\n" ++
  "link_design $TOP_MODULE\n" ++
  "\n" ++
  "# Read constraints\n"

/-- Second quarter of the fixed template tail. -/
def tclT4b : String :=
  "if \x7b[file exists $SDC_FILE]\x7d \x7b\n" ++
  "    read_sdc $SDC_FILE\n" ++
  "\x7d else \x7b\n" ++
  "    puts \"Warning: SDC file $SDC_FILE not found, using default constraints\"\n" ++
  "    create_clock -name clk -period $CLOCK_PERIOD [get_ports clk]\n" ++
  "\x7d\n" ++
  "\n" ++
  "# Initialize floorplan\n" ++
  "initialize_floorplan \\\n" ++
  "    -die_area $DIE_AREA \\\n" ++
  "    -core_area $CORE_AREA \\\n" ++
  "    -site unithd\n" ++
  "\n" ++
  "# Place macros (if any)\n" ++
  "if \x7b$ENABLE_MACRO_PLACEMENT\x7d \x7b\n" ++
  "    # Auto place any memory macros\n" ++
  "    auto_macro_placement\n" ++
  "\x7d\n" ++
  "\n" ++
  "# Power planning\n" ++
  "add_global_connection -net $POWER_NETS -pin_pattern VDD -power\n" ++
  "add_global_connection -net $GROUND_NETS -pin_pattern VSS -ground\n" ++
  "\n" ++
  "# Global placement\n" ++
  "global_placement -density $PLACE_DENSITY\n" ++
  "puts \"Global placement completed\"\n" ++
  "\n" ++
  "# Resize and buffer insertion\n" ++
  "estimate_parasitics -placement\n"

/-- Third quarter of the fixed template tail. -/
def tclT4c : String :=
  "repair_design\n" ++
  "puts \"Initial repair completed\"\n" ++
  "\n" ++
  "# Detailed placement\n" ++
  "detailed_placement\n" ++
  "puts \"Detailed placement completed\"\n" ++
  "\n" ++
  "# Clock tree synthesis\n" ++
  "clock_tree_synthesis \\\n" ++
  "    -buf_list $CTS_BUF_CELL \\\n" ++
  "    -root_buf $CTS_BUF_CELL\n" ++
  "puts \"Clock tree synthesis completed\"\n" ++
  "\n" ++
  "# Post-CTS optimization\n" ++
  "estimate_parasitics -placement\n" ++
  "repair_design\n" ++
  "puts \"Post-CTS repair completed\"\n" ++
  "\n" ++
  "# Global routing\n" ++
  "set_routing_layers -signal $MIN_ROUTE_LAYER:$MAX_ROUTE_LAYER\n" ++
  "global_route\n" ++
  "puts \"Global routing completed\"\n" ++
  "\n" ++
  "# Detailed routing\n" ++
  "detailed_route\n" ++
  "puts \"Detailed routing completed\"\n" ++
  "\n" ++
  "# Final parasitic extraction and optimization\n" ++
  "estimate_parasitics -placement\n" ++
  "repair_design -max_wire_length 500\n" ++
  "puts \"Final repair completed\"\n" ++
  "\n" ++
  "# Fill insertion\n" ++
  "filler_placement sky130_fd_sc_hd__fill_*\n"

/-- Fourth quarter of the fixed template tail. -/
def tclT4d : String :=
  "puts \"Filler placement completed\"\n" ++
  "\n" ++
  "# Generate reports\n" ++
  "report_checks -path_delay min_max -fields input_pin,net,fanout \\\n" ++
  "    > $reports_dir/timing_report.txt\n" ++
  "report_power > $reports_dir/power_report.txt\n" ++
  "report_design_area > $reports_dir/area_report.txt\n" ++
  "\n" ++
  "# Write results\n" ++
  "write_def $results_dir/vixen_dio_pro_final.def\n" ++
  "write_verilog $results_dir/vixen_dio_pro_final.v\n" ++
  "write_sdf $results_dir/vixen_dio_pro_final.sdf\n" ++
  "write_spef $results_dir/vixen_dio_pro_final.spef\n" ++
  "\n" ++
  "# GDS generation (if LEF/GDS libraries are available)\n" ++
  "if \x7b[info exists GDS_LIBS]\x7d \x7b\n" ++
  "    write_gds $results_dir/vixen_dio_pro_final.gds\n" ++
  "    puts \"GDS file generated successfully\"\n" ++
  "\x7d\n" ++
  "\n" ++
  "puts \"Vixen Dio Pro synthesis flow completed successfully!\"\n" ++
  "exit 0\n"

/-- Fixed template text after the `logs_dir` substitution (the remainder
of the f-string, with `\x7b\x7b`/`\x7d\x7d` unescaped to single braces and
`\\` to single backslashes, exactly as Python renders it), assembled from
its four quarters. -/
def tclT4 : String := tclT4a ++ tclT4b ++ tclT4c ++ tclT4d


/-- The full rendered TCL text: the fixed template with the four path
strings substituted at their f-string interpolation sites, in source
order (config file, results dir, reports dir, logs dir). -/
def tclScript (config_file results_dir reports_dir logs_dir : String) : String :=
  tclT0 ++ config_file ++ tclT1 ++ results_dir ++ tclT2 ++ reports_dir ++
    tclT3 ++ logs_dir ++ tclT4

/-- Path of the generated script:
`self.project_root / "scripts" / "vixen_synthesis.tcl"`. -/
def scriptPath (flow : VixenSynthesisFlow) : FPath :=
  flow.project_root ++ ["scripts", "vixen_synthesis.tcl"]

/-- `generate_tcl_script()`: render the template with the orchestrator's
paths, write it (truncating) to `scripts/vixen_synthesis.tcl`, and return
that path. The `open` raises when the `scripts` directory is missing;
nothing in the method creates it. -/
def generate_tcl_script (flow : VixenSynthesisFlow) (st : St) :
    Except PyErr (St × FPath) :=
  let text := tclScript (pathStr flow.config_file) (pathStr flow.results_dir)
    (pathStr flow.reports_dir) (pathStr flow.logs_dir)
  match st.fs.openWrite (scriptPath flow) text with
  | .error e => .error e
  | .ok fs => .ok ({ st with fs := fs }, scriptPath flow)

/-- Path of the timing report read by `print_summary`. -/
def timingReportPath (flow : VixenSynthesisFlow) : FPath :=
  flow.reports_dir ++ ["timing_report.txt"]

/-- Path of the area report. -/
def areaReportPath (flow : VixenSynthesisFlow) : FPath :=
  flow.reports_dir ++ ["area_report.txt"]

/-- Path of the power report. -/
def powerReportPath (flow : VixenSynthesisFlow) : FPath :=
  flow.reports_dir ++ ["power_report.txt"]

/-- The message printed when the timing report text contains `"slack"`
case-insensitively. -/
def timingGeneratedMsg : String := "  - Timing report generated"

/-- The message printed when the timing report exists but its text does
not contain `"slack"`. -/
def timingCheckMsg : String := "  - Check timing report for detailed analysis"

/-- The console lines `print_summary()` emits, in print order, as a
function of the filesystem: the three header prints, the timing-report
block (existence-gated; the text, when present, is read in full and
probed case-insensitively for `"slack"`, choosing between two fixed
messages), the existence-gated area and power blocks, the fixed listings
of output locations and key files, the existence-gated GDS line, and the
static processor-specification text. In this model a file that exists is
always readable, so the `except Exception` fallback branch of the source
(which prints `"  - Timing report available but could not be parsed"`)
is unreachable. -/
def summaryLines (flow : VixenSynthesisFlow) (fs : FS) : List String :=
  ["\\n" ++ eqLine, "VIXEN DIO PRO SYNTHESIS SUMMARY", eqLine] ++
  (match fs.fileContent (timingReportPath flow) with
   | none => []
   | some content =>
     ["Timing Analysis:",
      if strContainsSub (lowerStr content) "slack" then timingGeneratedMsg
      else timingCheckMsg]) ++
  (if fs.fileExists (areaReportPath flow) then
    ["Area Analysis:", "  - Area report generated"]
   else []) ++
  (if fs.fileExists (powerReportPath flow) then
    ["Power Analysis:", "  - Power report generated"]
   else []) ++
  ["\\nOutput files available in:",
   "  - Results: " ++ pathStr flow.results_dir,
   "  - Reports: " ++ pathStr flow.reports_dir,
   "  - Logs: " ++ pathStr flow.logs_dir,
   "\\nKey files:",
   "  - Final netlist: " ++ pathStr flow.results_dir ++ "/vixen_dio_pro_final.v",
   "  - Layout (DEF): " ++ pathStr flow.results_dir ++ "/vixen_dio_pro_final.def",
   "  - Timing (SDF): " ++ pathStr flow.results_dir ++ "/vixen_dio_pro_final.sdf",
   "  - Parasitics: " ++ pathStr flow.results_dir ++ "/vixen_dio_pro_final.spef"] ++
  (if fs.fileExists (flow.results_dir ++ ["vixen_dio_pro_final.gds"]) then
    ["  - Layout (GDS): " ++ pathStr (flow.results_dir ++ ["vixen_dio_pro_final.gds"])]
   else []) ++
  ["\\nProcessor specifications achieved:",
   "  - Architecture: x86-64 CISC processor",
   "  - Cores: 1 physical core, 2 HT threads",
   "  - Pipeline: 20 stages",
   "  - Issue width: 3-way superscalar",
   "  - Process: 130nm",
   "  - Target frequency: 3.4 GHz",
   "  - Die area target: ~240 mmÂ²"]

/-- `print_summary()`: reads report files, prints the lines of
`summaryLines` in order, and modifies nothing else. -/
def print_summary (flow : VixenSynthesisFlow) (st : St) : St :=
  { st with out := st.out ++ summaryLines flow st.fs }

/-- The header line of the summary printout; it appears in the console
output exactly when `print_summary` ran. -/
def summaryHeader : String := "VIXEN DIO PRO SYNTHESIS SUMMARY"

/-- The command `run_synthesis` passes to the shell. -/
def openroadCommand (flow : VixenSynthesisFlow) : String :=
  "openroad -no_splash " ++ pathStr (scriptPath flow)

/-- `run_synthesis()`: print the banner, generate the TCL script, run
`openroad -no_splash <script>` through `run_command` with
`log_file="synthesis.log"`, then, on success, print the success line and
the summary and return `true`; on failure print the failure lines and
return `false`. No exception handling of its own. -/
def run_synthesis (flow : VixenSynthesisFlow) (w : World) (st : St) :
    Except PyErr (St × Bool) :=
  let st := ((st.print eqLine).print "Starting Vixen Dio Pro Synthesis Flow").print
    eqLine
  match generate_tcl_script flow st with
  | .error e => .error e
  | .ok (st, tcl_script) =>
    let command := "openroad -no_splash " ++ pathStr tcl_script
    match run_command flow w command (some "synthesis.log") st with
    | .error e => .error e
    | .ok (st, success) =>
      if success then
        let st := st.print ("\\nSynthesis completed successfully in " ++ w.durStr ++
          " seconds!")
        .ok (print_summary flow st, true)
      else
        let st := st.print ("\\nSynthesis failed after " ++ w.durStr ++ " seconds.")
        let st := st.print ("Check log file: " ++ pathStr flow.logs_dir ++
          "/synthesis.log")
        .ok (st, false)

/-- Does the argument vector trigger the help branch:
`len(sys.argv) > 1 and sys.argv[1] in ['-h', '--help']`? -/
def isHelpArgv (argv : List String) : Bool :=
  match argv with
  | _ :: a1 :: _ => a1 == "-h" || a1 == "--help"
  | _ => false

/-- The four usage lines printed by the help branch. -/
def usageLines : List String :=
  ["Vixen Dio Pro Synthesis Flow",
   "Usage: python3 vixen_synthesis.py",
   "\\nThis script runs the complete OpenROAD synthesis flow for",
   "the Vixen Dio Pro processor targeting 130nm process technology."]

/-- `main()`: on `-h`/`--help` as first argument, print usage and return
(process exit code 0) without any other work; otherwise construct the
orchestrator, check prerequisites (`sys.exit(1)` when missing), run the
synthesis (`sys.exit(1)` on failure), exit code 0 on success. The
returned `Nat` is the process exit code. -/
def main (root : FPath) (argv : List String) (w : World) (st : St) :
    Except PyErr (St × Nat) :=
  if isHelpArgv argv then
    .ok ({ st with out := st.out ++ usageLines }, 0)
  else
    match initFlow root st.fs with
    | .error e => .error e
    | .ok (flow, fs) =>
      match check_prerequisites flow w { st with fs := fs } with
      | .error e => .error e
      | .ok (st, ok) =>
        if ok then
          match run_synthesis flow w st with
          | .error e => .error e
          | .ok (st, success) => .ok (st, if success then 0 else 1)
        else .ok (st, 1)

/-- Did the process run end in exit status 0? -/
def exitedZero : ProcResult → Bool
  | .exit 0 _ => true
  | _ => false

/-- Occurrence count of `pat` over a chunked text, chunk by chunk: each
step counts the occurrences starting inside the head chunk (a match may
spill over into the following chunks by at most `pat.length - 1`
characters). Agrees with `countOccs` on the flattened text
(`countOccs_flatten` below); lets occurrence counts over a long
concatenation be evaluated without deep recursion. -/
def chunkedCount (pat : List Char) : List (List Char) → Nat
  | [] => 0
  | a :: rest =>
    countOccs pat (a ++ (rest.flatten.take (pat.length - 1))) + chunkedCount pat rest

/-- The rendered TCL text as its list of pieces, in order: the fixed
template fragments with the four substituted paths interleaved at their
interpolation sites (`tclScript_data_flatten` proves the
correspondence). -/
def tclPieces (c r p l : String) : List String :=
  [tclT0, c, tclT1, r, tclT2, p, tclT3, l, tclT4a, tclT4b, tclT4c, tclT4d]

/-! ## General lemmas about the filesystem model -/

theorem dirExists_writeFile (fs : FS) (p : FPath) (c : String) (q : FPath) :
    (fs.writeFile p c).dirExists q = fs.dirExists q := rfl

theorem fileContent_writeFile_self (fs : FS) (p : FPath) (c : String) :
    (fs.writeFile p c).fileContent p = some c := by
  simp [FS.writeFile, FS.fileContent]

theorem dropLast_concat_one (l : FPath) (a : String) :
    (l ++ [a]).dropLast = l := List.dropLast_concat

theorem dropLast_concat_two (l : FPath) (a b : String) :
    (l ++ [a, b]).dropLast = l ++ [a] := by
  have h : l ++ [a, b] = (l ++ [a]) ++ [b] := by simp
  rw [h, List.dropLast_concat]

theorem append_singleton_ne (root : FPath) {a b : String} (h : a ≠ b) :
    root ++ [a] ≠ root ++ [b] := by
  intro he
  exact h (by simpa using (List.append_right_inj root).mp he)

theorem append_singleton_ne_self (root : FPath) (a : String) :
    root ≠ root ++ [a] := by
  intro he
  have hl := congrArg List.length he
  simp at hl

/-- `mkdir(exist_ok=True)` with an existing parent: succeeds, leaves files
alone, makes the target exist, preserves existing directories, and creates
nothing but the target. -/
theorem mkdirExistOk_spec (fs : FS) (p : FPath)
    (hp : fs.dirExists p.dropLast = true) :
    ∃ fs2, fs.mkdirExistOk p = .ok fs2 ∧ fs2.files = fs.files ∧
      fs2.dirExists p = true ∧
      (∀ q, fs.dirExists q = true → fs2.dirExists q = true) ∧
      (∀ q, fs2.dirExists q = true → fs.dirExists q = true ∨ q = p) := by
  by_cases h : fs.dirExists p = true
  · exact ⟨fs, by simp [FS.mkdirExistOk, h], rfl, h, fun q hq => hq,
      fun q hq => Or.inl hq⟩
  · have h' : fs.dirExists p = false := by simpa using h
    refine ⟨⟨p :: fs.dirs, fs.files⟩, ?_, rfl, ?_, ?_, ?_⟩
    · simp [FS.mkdirExistOk, h', hp]
    · simp [FS.dirExists, List.contains_cons]
    · intro q hq
      have hq' : q ∈ fs.dirs := by simpa [FS.dirExists] using hq
      simp only [FS.dirExists, List.contains_cons]
      simp [hq']
    · intro q hq
      simp only [FS.dirExists, List.contains_cons, Bool.or_eq_true] at hq
      rcases hq with hq | hq
      · exact Or.inr (by simpa using hq)
      · exact Or.inl hq

/-- `__init__` with an existing project root: succeeds, leaves files
alone, preserves existing directories, guarantees the three output
directories exist afterwards, and creates no directory besides those
three. -/
theorem initFlow_ok (root : FPath) (fs : FS) (h : fs.dirExists root = true) :
    ∃ fs3, initFlow root fs = .ok (⟨root⟩, fs3) ∧ fs3.files = fs.files ∧
      (∀ q, fs.dirExists q = true → fs3.dirExists q = true) ∧
      fs3.dirExists (root ++ ["results"]) = true ∧
      fs3.dirExists (root ++ ["reports"]) = true ∧
      fs3.dirExists (root ++ ["logs"]) = true ∧
      (∀ q, fs3.dirExists q = true → fs.dirExists q = true ∨
        q = root ++ ["results"] ∨ q = root ++ ["reports"] ∨ q = root ++ ["logs"]) := by
  obtain ⟨fs1, e1, hf1, hd1, hm1, hb1⟩ :=
    mkdirExistOk_spec fs (root ++ ["results"]) (by rwa [dropLast_concat_one])
  obtain ⟨fs2, e2, hf2, hd2, hm2, hb2⟩ :=
    mkdirExistOk_spec fs1 (root ++ ["reports"])
      (by rw [dropLast_concat_one]; exact hm1 _ h)
  obtain ⟨fs3, e3, hf3, hd3, hm3, hb3⟩ :=
    mkdirExistOk_spec fs2 (root ++ ["logs"])
      (by rw [dropLast_concat_one]; exact hm2 _ (hm1 _ h))
  refine ⟨fs3, ?_, by rw [hf3, hf2, hf1], fun q hq => hm3 _ (hm2 _ (hm1 _ hq)),
    hm3 _ (hm2 _ hd1), hm3 _ hd2, hd3, ?_⟩
  · simp [initFlow, VixenSynthesisFlow.results_dir, VixenSynthesisFlow.reports_dir,
      VixenSynthesisFlow.logs_dir, e1, e2, e3]
  · intro q hq
    rcases hb3 q hq with h0 | h0
    · rcases hb2 q h0 with h1 | h1
      · rcases hb1 q h1 with h2 | h2
        · exact Or.inl h2
        · exact Or.inr (Or.inl h2)
      · exact Or.inr (Or.inr (Or.inl h1))
    · exact Or.inr (Or.inr (Or.inr h0))

/-! ## Claims C3, C8, C10: orchestrator construction -/

/-- C3, counterexample. With a project root containing none of the
subdirectories, construction succeeds but does not create `config/`; the
claim that all four directories (results, reports, logs, config) exist
after construction is false at this input. -/
theorem C3_counterexample :
    initFlow ["proj"] ⟨[["proj"]], []⟩ =
      .ok (⟨["proj"]⟩,
        ⟨[["proj", "logs"], ["proj", "reports"], ["proj", "results"], ["proj"]], []⟩) ∧
    FS.dirExists
      ⟨[["proj", "logs"], ["proj", "reports"], ["proj", "results"], ["proj"]], []⟩
      ["proj", "config"] = false := by
  constructor
  · rfl
  · rfl

/-- C3, amended: construction computes four fixed paths, but creates only
the `results`, `reports` and `logs` directories; the `config` directory is
never created, so it is absent after construction whenever it was absent
before. -/
theorem C3_amended (root : FPath) (fs : FS) (h : fs.dirExists root = true)
    (hc : fs.dirExists (root ++ ["config"]) = false) :
    ∃ fs', initFlow root fs = .ok (⟨root⟩, fs') ∧
      fs'.dirExists (root ++ ["results"]) = true ∧
      fs'.dirExists (root ++ ["reports"]) = true ∧
      fs'.dirExists (root ++ ["logs"]) = true ∧
      fs'.dirExists (root ++ ["config"]) = false := by
  obtain ⟨fs', e, _, _, h1, h2, h3, hback⟩ := initFlow_ok root fs h
  refine ⟨fs', e, h1, h2, h3, ?_⟩
  cases hb : fs'.dirExists (root ++ ["config"]) with
  | false => rfl
  | true =>
    rcases hback _ hb with h0 | h0 | h0 | h0
    · rw [h0] at hc; exact absurd hc (by simp)
    · exact absurd h0 (append_singleton_ne root (by decide))
    · exact absurd h0 (append_singleton_ne root (by decide))
    · exact absurd h0 (append_singleton_ne root (by decide))

/-- C3, witness for the amended theorem at a concrete input. -/
theorem C3_witness :
    FS.dirExists ⟨[["proj"]], []⟩ ["proj"] = true ∧
    FS.dirExists ⟨[["proj"]], []⟩ (["proj"] ++ ["config"]) = false ∧
    ∃ fs', initFlow ["proj"] ⟨[["proj"]], []⟩ = .ok (⟨["proj"]⟩, fs') ∧
      fs'.dirExists (["proj"] ++ ["results"]) = true ∧
      fs'.dirExists (["proj"] ++ ["reports"]) = true ∧
      fs'.dirExists (["proj"] ++ ["logs"]) = true ∧
      fs'.dirExists (["proj"] ++ ["config"]) = false :=
  ⟨by decide, by decide, C3_amended ["proj"] ⟨[["proj"]], []⟩ (by decide) (by decide)⟩

/-- C8. Constructing the orchestrator against a project root lacking
`results/`, `reports/` and `logs/` creates exactly those three
directories (the directory list afterwards is the old one plus exactly
those three entries, and files are untouched), and construction is
idempotent: constructing again over the resulting state raises no error
and changes nothing. -/
theorem C8_init_exact_and_idempotent (root : FPath) (fs : FS)
    (h : fs.dirExists root = true)
    (h1 : fs.dirExists (root ++ ["results"]) = false)
    (h2 : fs.dirExists (root ++ ["reports"]) = false)
    (h3 : fs.dirExists (root ++ ["logs"]) = false) :
    initFlow root fs = .ok (⟨root⟩,
      ⟨(root ++ ["logs"]) :: (root ++ ["reports"]) :: (root ++ ["results"]) :: fs.dirs,
       fs.files⟩) ∧
    initFlow root
      ⟨(root ++ ["logs"]) :: (root ++ ["reports"]) :: (root ++ ["results"]) :: fs.dirs,
       fs.files⟩ =
      .ok (⟨root⟩,
        ⟨(root ++ ["logs"]) :: (root ++ ["reports"]) :: (root ++ ["results"]) :: fs.dirs,
         fs.files⟩) := by
  have hrr : root ++ ["reports"] ≠ root ++ ["results"] :=
    append_singleton_ne root (by decide)
  have hlr : root ++ ["logs"] ≠ root ++ ["results"] :=
    append_singleton_ne root (by decide)
  have hlp : root ++ ["logs"] ≠ root ++ ["reports"] :=
    append_singleton_ne root (by decide)
  have hroot : root ∈ fs.dirs := by simpa [FS.dirExists] using h
  have hd1 : ¬ root ++ ["results"] ∈ fs.dirs := by simpa [FS.dirExists] using h1
  have hd2 : ¬ root ++ ["reports"] ∈ fs.dirs := by simpa [FS.dirExists] using h2
  have hd3 : ¬ root ++ ["logs"] ∈ fs.dirs := by simpa [FS.dirExists] using h3
  constructor
  · simp [initFlow, FS.mkdirExistOk, FS.dirExists, VixenSynthesisFlow.results_dir,
      VixenSynthesisFlow.reports_dir, VixenSynthesisFlow.logs_dir,
      dropLast_concat_one, List.mem_cons, hroot, hd1, hd2, hd3,
      hrr, hlr, hlp]
  · simp [initFlow, FS.mkdirExistOk, FS.dirExists, VixenSynthesisFlow.results_dir,
      VixenSynthesisFlow.reports_dir, VixenSynthesisFlow.logs_dir,
      List.contains_cons]

/-- C8, witness at a concrete input. -/
theorem C8_witness :
    FS.dirExists ⟨[["proj"]], []⟩ ["proj"] = true ∧
    FS.dirExists ⟨[["proj"]], []⟩ (["proj"] ++ ["results"]) = false ∧
    FS.dirExists ⟨[["proj"]], []⟩ (["proj"] ++ ["reports"]) = false ∧
    FS.dirExists ⟨[["proj"]], []⟩ (["proj"] ++ ["logs"]) = false ∧
    (initFlow ["proj"] ⟨[["proj"]], []⟩ = .ok (⟨["proj"]⟩,
      ⟨(["proj"] ++ ["logs"]) :: (["proj"] ++ ["reports"]) ::
        (["proj"] ++ ["results"]) :: [["proj"]], []⟩) ∧
     initFlow ["proj"]
      ⟨(["proj"] ++ ["logs"]) :: (["proj"] ++ ["reports"]) ::
        (["proj"] ++ ["results"]) :: [["proj"]], []⟩ =
      .ok (⟨["proj"]⟩,
        ⟨(["proj"] ++ ["logs"]) :: (["proj"] ++ ["reports"]) ::
          (["proj"] ++ ["results"]) :: [["proj"]], []⟩)) :=
  ⟨by decide, by decide, by decide, by decide,
   C8_init_exact_and_idempotent ["proj"] ⟨[["proj"]], []⟩
     (by decide) (by decide) (by decide) (by decide)⟩

/-- C10. Construction creates only `results/`, `reports/` and `logs/`,
never `scripts/`; so for a project root whose `scripts/` directory is
absent, construction succeeds, `scripts/` is still absent afterwards, and
`generate_tcl_script` then fails with an uncaught error when opening
`scripts/vixen_synthesis.tcl` for writing. -/
theorem C10_generate_fails_without_scripts_dir (root : FPath) (fs : FS)
    (h : fs.dirExists root = true)
    (hs : fs.dirExists (root ++ ["scripts"]) = false) :
    ∃ fs', initFlow root fs = .ok (⟨root⟩, fs') ∧
      fs'.dirExists (root ++ ["scripts"]) = false ∧
      ∀ out0, generate_tcl_script ⟨root⟩ ⟨fs', out0⟩ = .error .fileNotFound := by
  obtain ⟨fs', e, _, _, _, _, _, hback⟩ := initFlow_ok root fs h
  have hsc : fs'.dirExists (root ++ ["scripts"]) = false := by
    cases hb : fs'.dirExists (root ++ ["scripts"]) with
    | false => rfl
    | true =>
      rcases hback _ hb with h0 | h0 | h0 | h0
      · rw [h0] at hs; exact absurd hs (by simp)
      · exact absurd h0 (append_singleton_ne root (by decide))
      · exact absurd h0 (append_singleton_ne root (by decide))
      · exact absurd h0 (append_singleton_ne root (by decide))
  refine ⟨fs', e, hsc, fun out0 => ?_⟩
  simp [generate_tcl_script, FS.openWrite, scriptPath, dropLast_concat_two, hsc]

/-- C10, witness at a concrete input. -/
theorem C10_witness :
    FS.dirExists ⟨[["proj"]], []⟩ ["proj"] = true ∧
    FS.dirExists ⟨[["proj"]], []⟩ (["proj"] ++ ["scripts"]) = false ∧
    ∃ fs', initFlow ["proj"] ⟨[["proj"]], []⟩ = .ok (⟨["proj"]⟩, fs') ∧
      fs'.dirExists (["proj"] ++ ["scripts"]) = false ∧
      ∀ out0, generate_tcl_script ⟨["proj"]⟩ ⟨fs', out0⟩ = .error .fileNotFound :=
  ⟨by decide, by decide,
   C10_generate_fails_without_scripts_dir ["proj"] ⟨[["proj"]], []⟩
     (by decide) (by decide)⟩

/-! ## Script generation and the synthesis run -/

/-- A successful `generate_tcl_script` returns the fixed script path and
stores exactly the rendered template text there. -/
theorem generate_tcl_script_ok (flow : VixenSynthesisFlow) (st st' : St) (p : FPath)
    (e : generate_tcl_script flow st = .ok (st', p)) :
    p = scriptPath flow ∧
    st'.fs.fileContent (scriptPath flow) =
      some (tclScript (pathStr flow.config_file) (pathStr flow.results_dir)
        (pathStr flow.reports_dir) (pathStr flow.logs_dir)) := by
  unfold generate_tcl_script FS.openWrite at e
  by_cases hd : st.fs.dirExists (scriptPath flow).dropLast = true
  · simp only [hd, if_true, reduceIte] at e
    simp only [Except.ok.injEq, Prod.mk.injEq] at e
    obtain ⟨hst, hp⟩ := e
    refine ⟨hp.symm, ?_⟩
    rw [← hst]
    exact fileContent_writeFile_self _ _ _
  · simp only [Bool.not_eq_true] at hd
    simp [hd] at e

/-- C5. `generate_tcl_script` is deterministic: any two successful
invocations with the same orchestrator paths return the same script path
and store byte-identical script text (the template is pure string
substitution of the configuration-file path and the three directory
paths; no other input enters the text). -/
theorem C5_generate_deterministic (flow : VixenSynthesisFlow)
    (st1 st2 st1' st2' : St) (p1 p2 : FPath)
    (e1 : generate_tcl_script flow st1 = .ok (st1', p1))
    (e2 : generate_tcl_script flow st2 = .ok (st2', p2)) :
    p1 = p2 ∧ st1'.fs.fileContent p1 = st2'.fs.fileContent p2 := by
  obtain ⟨hp1, hc1⟩ := generate_tcl_script_ok flow st1 st1' p1 e1
  obtain ⟨hp2, hc2⟩ := generate_tcl_script_ok flow st2 st2' p2 e2
  subst hp1; subst hp2
  exact ⟨rfl, by rw [hc1, hc2]⟩

/-- C5, witness: two concrete invocations at distinct states. -/
theorem C5_witness :
    (generate_tcl_script ⟨["proj"]⟩ ⟨⟨[["proj"], ["proj", "scripts"]], []⟩, []⟩ =
      .ok (⟨FS.writeFile ⟨[["proj"], ["proj", "scripts"]], []⟩ (scriptPath ⟨["proj"]⟩)
        (tclScript (pathStr (VixenSynthesisFlow.config_file ⟨["proj"]⟩))
          (pathStr (VixenSynthesisFlow.results_dir ⟨["proj"]⟩))
          (pathStr (VixenSynthesisFlow.reports_dir ⟨["proj"]⟩))
          (pathStr (VixenSynthesisFlow.logs_dir ⟨["proj"]⟩))), []⟩,
        scriptPath ⟨["proj"]⟩)) ∧
    scriptPath ⟨["proj"]⟩ = scriptPath ⟨["proj"]⟩ ∧
    FS.fileContent (FS.writeFile ⟨[["proj"], ["proj", "scripts"]], []⟩
        (scriptPath ⟨["proj"]⟩)
        (tclScript (pathStr (VixenSynthesisFlow.config_file ⟨["proj"]⟩))
          (pathStr (VixenSynthesisFlow.results_dir ⟨["proj"]⟩))
          (pathStr (VixenSynthesisFlow.reports_dir ⟨["proj"]⟩))
          (pathStr (VixenSynthesisFlow.logs_dir ⟨["proj"]⟩))))
        (scriptPath ⟨["proj"]⟩) =
      FS.fileContent (FS.writeFile ⟨[["proj"], ["proj", "scripts"]], []⟩
        (scriptPath ⟨["proj"]⟩)
        (tclScript (pathStr (VixenSynthesisFlow.config_file ⟨["proj"]⟩))
          (pathStr (VixenSynthesisFlow.results_dir ⟨["proj"]⟩))
          (pathStr (VixenSynthesisFlow.reports_dir ⟨["proj"]⟩))
          (pathStr (VixenSynthesisFlow.logs_dir ⟨["proj"]⟩))))
        (scriptPath ⟨["proj"]⟩) := by
  have e : generate_tcl_script ⟨["proj"]⟩ ⟨⟨[["proj"], ["proj", "scripts"]], []⟩, []⟩ =
      .ok (⟨FS.writeFile ⟨[["proj"], ["proj", "scripts"]], []⟩ (scriptPath ⟨["proj"]⟩)
        (tclScript (pathStr (VixenSynthesisFlow.config_file ⟨["proj"]⟩))
          (pathStr (VixenSynthesisFlow.results_dir ⟨["proj"]⟩))
          (pathStr (VixenSynthesisFlow.reports_dir ⟨["proj"]⟩))
          (pathStr (VixenSynthesisFlow.logs_dir ⟨["proj"]⟩))), []⟩,
        scriptPath ⟨["proj"]⟩) := rfl
  exact ⟨e, C5_generate_deterministic ⟨["proj"]⟩ _ _ _ _ _ _ e e⟩

/-- `run_command` with a log file, when the subprocess exits: truncates
the log, writes the captured output into it, prints the `Running:` line
(plus the error line on nonzero exit), and returns `returncode == 0`. -/
theorem run_command_log_exit (flow : VixenSynthesisFlow) (w : World)
    (cmd name : String) (st : St) (c : Nat) (o : String)
    (hl : st.fs.dirExists flow.logs_dir = true)
    (hr : w.run cmd = .exit c o) :
    run_command flow w cmd (some name) st =
      .ok (⟨(st.fs.writeFile (flow.logs_dir ++ [name]) "").writeFile
              (flow.logs_dir ++ [name]) o,
            st.out ++ ["Running: " ++ cmd] ++
              (if c = 0 then []
               else ["Error: Command failed with return code " ++ toString c])⟩,
           decide (c = 0)) := by
  unfold run_command FS.openWrite St.print
  have hd : st.fs.dirExists (flow.logs_dir ++ [name]).dropLast = true := by
    rwa [dropLast_concat_one]
  simp only [hd, if_true, reduceIte, hr]
  by_cases hc : c = 0 <;> simp [hc]

/-- `run_command` with a log file propagates any subprocess error other
than a nonzero exit status (only `CalledProcessError` is caught). -/
theorem run_command_log_raise (flow : VixenSynthesisFlow) (w : World)
    (cmd name : String) (st : St)
    (hl : st.fs.dirExists flow.logs_dir = true)
    (hr : w.run cmd = .raise) :
    run_command flow w cmd (some name) st = .error .osError := by
  unfold run_command FS.openWrite St.print
  simp [dropLast_concat_one, hl, hr]

/-- `run_command` with a log file propagates the error raised by
`open(log_path, 'w')` when the logs directory is missing (the `open` is
outside the `try`). -/
theorem run_command_log_openfail (flow : VixenSynthesisFlow) (w : World)
    (cmd name : String) (st : St)
    (hl : st.fs.dirExists flow.logs_dir = false) :
    run_command flow w cmd (some name) st = .error .fileNotFound := by
  unfold run_command FS.openWrite St.print
  simp [dropLast_concat_one, hl]

/-- Full characterization of `run_synthesis` when the subprocess runs to
an exit code: the returned flag is `returncode == 0`, the log file holds
exactly the captured output, and the console output is the banner, the
`Running:` line, then either the success line followed by the summary or
the failure lines. -/
theorem run_synthesis_exit (flow : VixenSynthesisFlow) (w : World) (fs : FS)
    (out0 : List String) (c : Nat) (o : String)
    (hs : fs.dirExists (flow.project_root ++ ["scripts"]) = true)
    (hl : fs.dirExists flow.logs_dir = true)
    (hr : w.run (openroadCommand flow) = .exit c o) :
    ∃ fsf, run_synthesis flow w ⟨fs, out0⟩ = .ok (⟨fsf,
      out0 ++ [eqLine, "Starting Vixen Dio Pro Synthesis Flow", eqLine,
        "Running: " ++ openroadCommand flow] ++
      (if c = 0 then
        ["\\nSynthesis completed successfully in " ++ w.durStr ++ " seconds!"] ++
          summaryLines flow fsf
       else
        ["Error: Command failed with return code " ++ toString c,
         "\\nSynthesis failed after " ++ w.durStr ++ " seconds.",
         "Check log file: " ++ pathStr flow.logs_dir ++ "/synthesis.log"])⟩,
      decide (c = 0)) ∧
      fsf.fileContent (flow.logs_dir ++ ["synthesis.log"]) = some o := by
  refine ⟨((fs.writeFile (scriptPath flow)
      (tclScript (pathStr flow.config_file) (pathStr flow.results_dir)
        (pathStr flow.reports_dir) (pathStr flow.logs_dir))).writeFile
      (flow.logs_dir ++ ["synthesis.log"]) "").writeFile
      (flow.logs_dir ++ ["synthesis.log"]) o, ?_, ?_⟩
  · unfold run_synthesis generate_tcl_script FS.openWrite St.print
    have hd : fs.dirExists (scriptPath flow).dropLast = true := by
      unfold scriptPath
      rwa [dropLast_concat_two]
    simp only [hd, if_true, reduceIte]
    rw [run_command_log_exit flow w _ _ _ c o (by exact hl) (by exact hr)]
    by_cases hc : c = 0 <;> simp [hc, print_summary, openroadCommand]
  · exact fileContent_writeFile_self _ _ _

/-- `run_synthesis` when the subprocess raises an error other than a
nonzero exit status: the exception propagates (only `CalledProcessError`
is caught in `run_command`). -/
theorem run_synthesis_raise (flow : VixenSynthesisFlow) (w : World) (fs : FS)
    (out0 : List String)
    (hs : fs.dirExists (flow.project_root ++ ["scripts"]) = true)
    (hl : fs.dirExists flow.logs_dir = true)
    (hr : w.run (openroadCommand flow) = .raise) :
    run_synthesis flow w ⟨fs, out0⟩ = .error .osError := by
  unfold run_synthesis generate_tcl_script FS.openWrite St.print
  have hd : fs.dirExists (scriptPath flow).dropLast = true := by
    unfold scriptPath
    rwa [dropLast_concat_two]
  simp only [hd, if_true, reduceIte]
  rw [run_command_log_raise flow w _ _ _ (by exact hl)
    (by simpa [openroadCommand] using hr)]

/-- `run_synthesis` when the logs directory is missing: the error raised
by `open(log_path, 'w')` propagates (the `open` is outside the `try`). -/
theorem run_synthesis_openfail (flow : VixenSynthesisFlow) (w : World) (fs : FS)
    (out0 : List String)
    (hs : fs.dirExists (flow.project_root ++ ["scripts"]) = true)
    (hl : fs.dirExists flow.logs_dir = false) :
    run_synthesis flow w ⟨fs, out0⟩ = .error .fileNotFound := by
  unfold run_synthesis generate_tcl_script FS.openWrite St.print
  have hd : fs.dirExists (scriptPath flow).dropLast = true := by
    unfold scriptPath
    rwa [dropLast_concat_two]
  simp only [hd, if_true, reduceIte]
  rw [run_command_log_openfail flow w _ _ _ (by exact hl)]

/-! ## Claims C2 and C4: the synthesis run -/

/-- C2, counterexample. With an error raised while starting the
subprocess (e.g. an `OSError`, not a nonzero exit), `run_synthesis` does
not return a boolean failure: the exception propagates past its
boundary, refuting the claim that no exception of any kind escapes. -/
theorem C2_counterexample :
    run_synthesis ⟨["proj"]⟩ ⟨fun _ => ProcResult.raise, "0.00"⟩
      ⟨⟨[["proj"], ["proj", "scripts"], ["proj", "logs"]], []⟩, []⟩ =
      .error .osError := rfl

/-- C2, amended: only a nonzero exit status (`CalledProcessError`) is
converted into a boolean failure return; an error raised while spawning
or waiting on the subprocess, or while opening the log file, propagates
uncaught past `run_synthesis`. -/
theorem C2_amended (flow : VixenSynthesisFlow) (w : World) (fs : FS)
    (hs : fs.dirExists (flow.project_root ++ ["scripts"]) = true) :
    (∀ c o, w.run (openroadCommand flow) = .exit c o →
      fs.dirExists flow.logs_dir = true →
      ∃ stf, run_synthesis flow w ⟨fs, []⟩ = .ok (stf, decide (c = 0))) ∧
    (w.run (openroadCommand flow) = .raise →
      fs.dirExists flow.logs_dir = true →
      run_synthesis flow w ⟨fs, []⟩ = .error .osError) ∧
    (fs.dirExists flow.logs_dir = false →
      run_synthesis flow w ⟨fs, []⟩ = .error .fileNotFound) := by
  refine ⟨fun c o hr hl => ?_, fun hr hl => run_synthesis_raise flow w fs [] hs hl hr,
    fun hl => run_synthesis_openfail flow w fs [] hs hl⟩
  obtain ⟨fsf, e, _⟩ := run_synthesis_exit flow w fs [] c o hs hl hr
  exact ⟨_, e⟩

/-- C2, witness for the amended theorem at a concrete input (a world
whose subprocesses raise). -/
theorem C2_witness :
    FS.dirExists ⟨[["proj"], ["proj", "scripts"], ["proj", "logs"]], []⟩
      (["proj"] ++ ["scripts"]) = true ∧
    ((∀ c o, World.run ⟨fun _ => ProcResult.raise, "0.00"⟩
        (openroadCommand ⟨["proj"]⟩) = .exit c o →
      FS.dirExists ⟨[["proj"], ["proj", "scripts"], ["proj", "logs"]], []⟩
        (VixenSynthesisFlow.logs_dir ⟨["proj"]⟩) = true →
      ∃ stf, run_synthesis ⟨["proj"]⟩ ⟨fun _ => ProcResult.raise, "0.00"⟩
        ⟨⟨[["proj"], ["proj", "scripts"], ["proj", "logs"]], []⟩, []⟩ =
        .ok (stf, decide (c = 0))) ∧
     (World.run ⟨fun _ => ProcResult.raise, "0.00"⟩
        (openroadCommand ⟨["proj"]⟩) = .raise →
      FS.dirExists ⟨[["proj"], ["proj", "scripts"], ["proj", "logs"]], []⟩
        (VixenSynthesisFlow.logs_dir ⟨["proj"]⟩) = true →
      run_synthesis ⟨["proj"]⟩ ⟨fun _ => ProcResult.raise, "0.00"⟩
        ⟨⟨[["proj"], ["proj", "scripts"], ["proj", "logs"]], []⟩, []⟩ =
        .error .osError) ∧
     (FS.dirExists ⟨[["proj"], ["proj", "scripts"], ["proj", "logs"]], []⟩
        (VixenSynthesisFlow.logs_dir ⟨["proj"]⟩) = false →
      run_synthesis ⟨["proj"]⟩ ⟨fun _ => ProcResult.raise, "0.00"⟩
        ⟨⟨[["proj"], ["proj", "scripts"], ["proj", "logs"]], []⟩, []⟩ =
        .error .fileNotFound)) :=
  ⟨by decide, C2_amended ⟨["proj"]⟩ ⟨fun _ => ProcResult.raise, "0.00"⟩
    ⟨[["proj"], ["proj", "scripts"], ["proj", "logs"]], []⟩ (by decide)⟩

/-- Two strings differ when the first begins with a block that is not a
beginning of the second — whatever follows the block. Used to tell fixed
console messages apart from message families with substituted tails. -/
theorem ne_append_of_mismatch {p q : String}
    (h : p.data.isPrefixOf q.data = false) (x : String) : p ++ x ≠ q := by
  intro he
  have hd : p.data ++ x.data = q.data := by rw [← String.data_append, he]
  have hp : p.data.isPrefixOf q.data = true :=
    List.isPrefixOf_iff_prefix.mpr ⟨x.data, hd⟩
  rw [h] at hp
  exact Bool.false_ne_true hp

/-- C4. When the subprocess runs to an exit code, `run_synthesis` returns
`false` exactly on a nonzero status and `true` on zero; in both cases the
log file `logs/synthesis.log` afterwards holds exactly the output of this
run (truncate-and-write: any previous content is gone, nothing is
appended); and the summary printout appears in the console output if and
only if the run succeeded. -/
theorem C4_run_synthesis (flow : VixenSynthesisFlow) (w : World) (fs : FS)
    (c : Nat) (o : String)
    (hs : fs.dirExists (flow.project_root ++ ["scripts"]) = true)
    (hl : fs.dirExists flow.logs_dir = true)
    (hr : w.run (openroadCommand flow) = .exit c o) :
    ∃ stf, run_synthesis flow w ⟨fs, []⟩ = .ok (stf, decide (c = 0)) ∧
      stf.fs.fileContent (flow.logs_dir ++ ["synthesis.log"]) = some o ∧
      (summaryHeader ∈ stf.out ↔ c = 0) := by
  obtain ⟨fsf, e, hlog⟩ := run_synthesis_exit flow w fs [] c o hs hl hr
  refine ⟨_, e, hlog, ?_⟩
  by_cases hc : c = 0
  · subst hc
    simp [summaryLines, summaryHeader]
  · simp only [if_neg hc, iff_false_intro hc, iff_false]
    have n1 : summaryHeader ≠ eqLine := by decide
    have n2 : summaryHeader ≠ "Starting Vixen Dio Pro Synthesis Flow" := by decide
    have n3 : summaryHeader ≠ "Running: " ++ openroadCommand flow := by
      rw [openroadCommand, ← String.append_assoc]
      exact fun he => (ne_append_of_mismatch (by decide) _) he.symm
    have n4 : summaryHeader ≠
        "Error: Command failed with return code " ++ toString c :=
      fun he => (ne_append_of_mismatch (by decide) _) he.symm
    have n5 : summaryHeader ≠
        "\\nSynthesis failed after " ++ w.durStr ++ " seconds." := by
      rw [String.append_assoc]
      exact fun he => (ne_append_of_mismatch (by decide) _) he.symm
    have n6 : summaryHeader ≠
        "Check log file: " ++ pathStr flow.logs_dir ++ "/synthesis.log" := by
      rw [String.append_assoc]
      exact fun he => (ne_append_of_mismatch (by decide) _) he.symm
    simp [n1, n2, n3, n4, n5, n6]

/-- C4, witness at a concrete input (a subprocess that exits 0 with some
captured output). -/
theorem C4_witness :
    FS.dirExists ⟨[["proj"], ["proj", "scripts"], ["proj", "logs"]], []⟩
      (["proj"] ++ ["scripts"]) = true ∧
    FS.dirExists ⟨[["proj"], ["proj", "scripts"], ["proj", "logs"]], []⟩
      (VixenSynthesisFlow.logs_dir ⟨["proj"]⟩) = true ∧
    World.run ⟨fun _ => ProcResult.exit 0 "tool output", "1.00"⟩
      (openroadCommand ⟨["proj"]⟩) = .exit 0 "tool output" ∧
    ∃ stf, run_synthesis ⟨["proj"]⟩ ⟨fun _ => ProcResult.exit 0 "tool output", "1.00"⟩
        ⟨⟨[["proj"], ["proj", "scripts"], ["proj", "logs"]], []⟩, []⟩ =
        .ok (stf, decide ((0 : Nat) = 0)) ∧
      stf.fs.fileContent (VixenSynthesisFlow.logs_dir ⟨["proj"]⟩ ++ ["synthesis.log"]) =
        some "tool output" ∧
      (summaryHeader ∈ stf.out ↔ (0 : Nat) = 0) :=
  ⟨by decide, by decide, rfl,
   C4_run_synthesis ⟨["proj"]⟩ ⟨fun _ => ProcResult.exit 0 "tool output", "1.00"⟩
     ⟨[["proj"], ["proj", "scripts"], ["proj", "logs"]], []⟩ 0 "tool output"
     (by decide) (by decide) rfl⟩

/-! ## Claim C6: prerequisite checking -/

/-- `run_command` without a log file, when the subprocess exits: prints
the `Running:` line (plus the error line on nonzero exit), touches no
file, and returns `returncode == 0`. -/
theorem run_command_none_exit (flow : VixenSynthesisFlow) (w : World)
    (cmd : String) (st : St) (c : Nat) (o : String)
    (hr : w.run cmd = .exit c o) :
    run_command flow w cmd none st =
      .ok (⟨st.fs, st.out ++ ["Running: " ++ cmd] ++
        (if c = 0 then []
         else ["Error: Command failed with return code " ++ toString c])⟩,
        decide (c = 0)) := by
  unfold run_command St.print
  simp only [hr]
  by_cases hc : c = 0 <;> simp [hc]

/-- The probe loop of `check_prerequisites`: with no probe raising, it
succeeds, touches no file, and returns (in order) exactly the required
tools that do not resolve. -/
theorem probeTools_spec (flow : VixenSynthesisFlow) (w : World) (ts : List String) :
    ∀ st : St, (∀ t ∈ ts, w.run ("which " ++ t) ≠ .raise) →
    ∃ outAdd, probeTools flow w ts st =
      .ok (⟨st.fs, st.out ++ outAdd⟩, ts.filter (fun t => !(resolves w t))) := by
  induction ts with
  | nil =>
    intro st _
    exact ⟨[], by simp [probeTools]⟩
  | cons t ts ih =>
    intro st hw
    have hw' : ∀ x ∈ ts, w.run ("which " ++ x) ≠ .raise :=
      fun x hx => hw x (List.mem_cons_of_mem _ hx)
    cases hrt : w.run ("which " ++ t) with
    | raise => exact absurd hrt (hw t (List.mem_cons_self _ _))
    | exit c ot =>
      obtain ⟨outAdd2, ih'⟩ := ih ⟨st.fs, st.out ++ ["Running: " ++ ("which " ++ t)] ++
        (if c = 0 then []
         else ["Error: Command failed with return code " ++ toString c])⟩ hw'
      refine ⟨["Running: " ++ ("which " ++ t)] ++
        (if c = 0 then []
         else ["Error: Command failed with return code " ++ toString c]) ++ outAdd2, ?_⟩
      simp only [probeTools]
      rw [run_command_none_exit flow w _ st c ot hrt]
      simp only [ih']
      by_cases hc : c = 0
      · simp [hc, resolves, hrt, List.filter_cons, List.append_assoc]
      · simp [hc, resolves, hrt, List.filter_cons, List.append_assoc]

/-- `check_prerequisites`: with no probe raising, it returns whether all
required tools resolve, touches no file, and on failure prints the
missing tools, comma-joined, in its error line. -/
theorem check_prerequisites_spec (flow : VixenSynthesisFlow) (w : World) (st : St)
    (hw : ∀ t ∈ requiredTools, w.run ("which " ++ t) ≠ .raise) :
    ∃ st', check_prerequisites flow w st = .ok (st', requiredTools.all (resolves w)) ∧
      st'.fs = st.fs ∧
      (requiredTools.all (resolves w) = false →
        ("Error: Missing required tools: " ++
          String.intercalate ", " (requiredTools.filter (fun t => !(resolves w t)))) ∈
          st'.out) := by
  obtain ⟨outAdd, hp⟩ := probeTools_spec flow w requiredTools st hw
  unfold check_prerequisites
  rw [hp]
  by_cases hall : requiredTools.all (resolves w) = true
  · have hfil : requiredTools.filter (fun t => !(resolves w t)) = [] := by
      rw [List.filter_eq_nil_iff]
      intro a ha
      have := (List.all_eq_true.mp hall) a ha
      simp [this]
    refine ⟨⟨st.fs, st.out ++ outAdd⟩, ?_, rfl, ?_⟩
    · simp [hfil, hall]
    · intro hf
      rw [hall] at hf
      cases hf
  · have hallf : requiredTools.all (resolves w) = false := by
      cases hb : requiredTools.all (resolves w) with
      | false => rfl
      | true => exact absurd hb hall
    have hfil : requiredTools.filter (fun t => !(resolves w t)) ≠ [] := by
      intro hnil
      refine hall (List.all_eq_true.mpr (fun a ha => ?_))
      have := List.filter_eq_nil_iff.mp hnil a ha
      simpa using this
    have hie : (requiredTools.filter (fun t => !(resolves w t))).isEmpty = false := by
      cases hb : (requiredTools.filter (fun t => !(resolves w t))).isEmpty with
      | false => rfl
      | true => exact absurd (List.isEmpty_iff.mp hb) hfil
    refine ⟨((⟨st.fs, st.out ++ outAdd⟩ : St).print
        ("Error: Missing required tools: " ++
          String.intercalate ", " (requiredTools.filter (fun t => !(resolves w t))))).print
        "Please install OpenROAD and required dependencies", ?_, rfl, fun _ => ?_⟩
    · simp [hie, hallf]
    · simp [St.print, List.mem_append]

/-- C6. `check_prerequisites` returns true iff every tool in the fixed
required-tools list resolves on the search path (probed via
`which <tool>`); when it returns false, its error line lists, comma-joined,
exactly the required tools that do not resolve — in particular it names
every tool from the list that does not resolve. -/
theorem C6_check_prerequisites (flow : VixenSynthesisFlow) (w : World) (st : St)
    (hw : ∀ t ∈ requiredTools, w.run ("which " ++ t) ≠ .raise) :
    ∃ st', check_prerequisites flow w st = .ok (st', requiredTools.all (resolves w)) ∧
      (requiredTools.all (resolves w) = true ↔
        ∀ t ∈ requiredTools, resolves w t = true) ∧
      (requiredTools.all (resolves w) = false →
        ("Error: Missing required tools: " ++
          String.intercalate ", " (requiredTools.filter (fun t => !(resolves w t)))) ∈
          st'.out ∧
        ∀ t ∈ requiredTools, resolves w t = false →
          t ∈ requiredTools.filter (fun t => !(resolves w t))) := by
  obtain ⟨st', he, _, hmem⟩ := check_prerequisites_spec flow w st hw
  exact ⟨st', he, List.all_eq_true,
    fun hf => ⟨hmem hf, fun t ht hrf => List.mem_filter.mpr ⟨ht, by simp [hrf]⟩⟩⟩

/-- C6, witness at a concrete input: a search path on which only
`openroad` resolves. -/
theorem C6_witness :
    (∀ t ∈ requiredTools,
      World.run ⟨fun cmd => if cmd = "which openroad" then .exit 0 "" else .exit 1 "", "0"⟩
        ("which " ++ t) ≠ .raise) ∧
    (∃ st', check_prerequisites ⟨["proj"]⟩
        ⟨fun cmd => if cmd = "which openroad" then .exit 0 "" else .exit 1 "", "0"⟩
        ⟨⟨[], []⟩, []⟩ =
      .ok (st', requiredTools.all (resolves
        ⟨fun cmd => if cmd = "which openroad" then .exit 0 "" else .exit 1 "", "0"⟩)) ∧
      (requiredTools.all (resolves
          ⟨fun cmd => if cmd = "which openroad" then .exit 0 "" else .exit 1 "", "0"⟩) = true ↔
        ∀ t ∈ requiredTools, resolves
          ⟨fun cmd => if cmd = "which openroad" then .exit 0 "" else .exit 1 "", "0"⟩ t = true) ∧
      (requiredTools.all (resolves
          ⟨fun cmd => if cmd = "which openroad" then .exit 0 "" else .exit 1 "", "0"⟩) = false →
        ("Error: Missing required tools: " ++
          String.intercalate ", " (requiredTools.filter (fun t => !(resolves
            ⟨fun cmd => if cmd = "which openroad" then .exit 0 "" else .exit 1 "", "0"⟩ t)))) ∈
          st'.out ∧
        ∀ t ∈ requiredTools, resolves
            ⟨fun cmd => if cmd = "which openroad" then .exit 0 "" else .exit 1 "", "0"⟩ t = false →
          t ∈ requiredTools.filter (fun t => !(resolves
            ⟨fun cmd => if cmd = "which openroad" then .exit 0 "" else .exit 1 "", "0"⟩ t)))) :=
  ⟨by decide,
   C6_check_prerequisites ⟨["proj"]⟩
     ⟨fun cmd => if cmd = "which openroad" then .exit 0 "" else .exit 1 "", "0"⟩
     ⟨⟨[], []⟩, []⟩ (by decide)⟩

/-! ## Claim C7: the command-line surface -/

/-- C7. With `-h`/`--help` as the first argument, `main` prints the usage
text and exits 0 with the filesystem untouched and no other work (the
result does not depend on the outside world at all); with any other
argument vector the full flow runs, and the exit code is 0 exactly when
all required tools resolve and the external tool exits 0, and 1 when
prerequisites are missing or the tool invocation fails. -/
theorem C7_main (root : FPath) (argv : List String) (w : World) (fs : FS) :
    (isHelpArgv argv = true → main root argv w ⟨fs, []⟩ = .ok (⟨fs, usageLines⟩, 0)) ∧
    (isHelpArgv argv = false →
      fs.dirExists root = true →
      fs.dirExists (root ++ ["scripts"]) = true →
      (∀ cmd, w.run cmd ≠ .raise) →
      ∃ st', main root argv w ⟨fs, []⟩ = .ok (st',
        if requiredTools.all (resolves w) && exitedZero (w.run (openroadCommand ⟨root⟩))
        then 0 else 1)) := by
  constructor
  · intro hh
    simp [main, hh]
  · intro hh hroot hscripts hw
    obtain ⟨fs3, einit, _, hmono, _, _, hlog, _⟩ := initFlow_ok root fs hroot
    obtain ⟨st1, echeck, hst1fs, _⟩ := check_prerequisites_spec ⟨root⟩ w ⟨fs3, []⟩
      (fun t _ => hw _)
    by_cases hall : requiredTools.all (resolves w) = true
    · cases hrun : w.run (openroadCommand ⟨root⟩) with
      | raise => exact absurd hrun (hw _)
      | exit c o =>
        have hscripts3 :
            st1.fs.dirExists ((⟨root⟩ : VixenSynthesisFlow).project_root ++ ["scripts"]) =
              true := by
          rw [hst1fs]; exact hmono _ hscripts
        have hlogs3 : st1.fs.dirExists (VixenSynthesisFlow.logs_dir ⟨root⟩) = true := by
          rw [hst1fs]; exact hlog
        obtain ⟨fsf, erun, _⟩ :=
          run_synthesis_exit ⟨root⟩ w st1.fs st1.out c o hscripts3 hlogs3 hrun
        obtain ⟨stf, erun2⟩ :
            ∃ stf, run_synthesis ⟨root⟩ w st1 = .ok (stf, decide (c = 0)) := ⟨_, erun⟩
        refine ⟨stf, ?_⟩
        unfold main
        rw [if_neg (by simp [hh])]
        simp only [einit, echeck, hall, erun2, hrun, exitedZero]
        by_cases hc : c = 0 <;> simp [hc]
    · have hallf : requiredTools.all (resolves w) = false := by
        cases hb : requiredTools.all (resolves w) with
        | false => rfl
        | true => exact absurd hb hall
      refine ⟨st1, ?_⟩
      unfold main
      rw [if_neg (by simp [hh])]
      simp only [einit, echeck]
      simp [hallf]

/-- C7, witness: the help branch at `-h`, and the full flow on a world
where every command exits 0. -/
theorem C7_witness :
    isHelpArgv ["vixen_synthesis.py", "-h"] = true ∧
    main ["proj"] ["vixen_synthesis.py", "-h"] ⟨fun _ => ProcResult.exit 0 "", "1.00"⟩
      ⟨⟨[["proj"], ["proj", "scripts"]], []⟩, []⟩ =
      .ok (⟨⟨[["proj"], ["proj", "scripts"]], []⟩, usageLines⟩, 0) ∧
    isHelpArgv ["vixen_synthesis.py"] = false ∧
    FS.dirExists ⟨[["proj"], ["proj", "scripts"]], []⟩ ["proj"] = true ∧
    FS.dirExists ⟨[["proj"], ["proj", "scripts"]], []⟩ (["proj"] ++ ["scripts"]) = true ∧
    ∃ st', main ["proj"] ["vixen_synthesis.py"] ⟨fun _ => ProcResult.exit 0 "", "1.00"⟩
        ⟨⟨[["proj"], ["proj", "scripts"]], []⟩, []⟩ =
      .ok (st',
        if requiredTools.all (resolves ⟨fun _ => ProcResult.exit 0 "", "1.00"⟩) &&
          exitedZero (World.run ⟨fun _ => ProcResult.exit 0 "", "1.00"⟩
            (openroadCommand ⟨["proj"]⟩))
        then 0 else 1) :=
  ⟨by decide,
   (C7_main ["proj"] ["vixen_synthesis.py", "-h"] ⟨fun _ => ProcResult.exit 0 "", "1.00"⟩
     ⟨[["proj"], ["proj", "scripts"]], []⟩).1 (by decide),
   by decide, by decide, by decide,
   (C7_main ["proj"] ["vixen_synthesis.py"] ⟨fun _ => ProcResult.exit 0 "", "1.00"⟩
     ⟨[["proj"], ["proj", "scripts"]], []⟩).2 (by decide) (by decide) (by decide)
     (fun cmd h => ProcResult.noConfusion h)⟩

/-! ## Claim C1: the summary's timing messages -/

/-- C1, counterexample. When `reports/timing_report.txt` is absent,
`print_summary` prints neither of the two fixed timing messages, so it is
false that exactly one of them is printed for every filesystem state (and
in particular false that a fallback timing message appears when the file
is absent). -/
theorem C1_counterexample :
    FS.fileExists ⟨[], []⟩ (timingReportPath ⟨["proj"]⟩) = false ∧
    ¬ timingGeneratedMsg ∈ (print_summary ⟨["proj"]⟩ ⟨⟨[], []⟩, []⟩).out ∧
    ¬ timingCheckMsg ∈ (print_summary ⟨["proj"]⟩ ⟨⟨[], []⟩, []⟩).out := by
  refine ⟨rfl, ?_, ?_⟩ <;> decide

set_option maxHeartbeats 2000000 in
/-- C1, amended: when the timing report is absent, `print_summary` prints
no timing message at all; when it is present, exactly one of the two
fixed messages is printed — `"  - Timing report generated"` if the text
contains the case-insensitive substring `"slack"`, and
`"  - Check timing report for detailed analysis"` otherwise. -/
theorem C1_print_summary_timing (flow : VixenSynthesisFlow) (fs : FS) :
    (print_summary flow ⟨fs, []⟩).out.count timingGeneratedMsg =
      (match fs.fileContent (timingReportPath flow) with
       | none => 0
       | some content =>
         if strContainsSub (lowerStr content) "slack" then 1 else 0) ∧
    (print_summary flow ⟨fs, []⟩).out.count timingCheckMsg =
      (match fs.fileContent (timingReportPath flow) with
       | none => 0
       | some content =>
         if strContainsSub (lowerStr content) "slack" then 0 else 1) := by
  have g0 : "\\n" ++ eqLine ≠ ("  - Timing report generated" : String) :=
    ne_append_of_mismatch (by decide) _
  have g1 : eqLine ≠ ("  - Timing report generated" : String) := by decide
  have g2 : "  - Results: " ++ pathStr flow.results_dir ≠ ("  - Timing report generated" : String) :=
    ne_append_of_mismatch (by decide) _
  have g3 : "  - Reports: " ++ pathStr flow.reports_dir ≠ ("  - Timing report generated" : String) :=
    ne_append_of_mismatch (by decide) _
  have g4 : "  - Logs: " ++ pathStr flow.logs_dir ≠ ("  - Timing report generated" : String) :=
    ne_append_of_mismatch (by decide) _
  have g5 : "  - Final netlist: " ++ pathStr flow.results_dir ++
      "/vixen_dio_pro_final.v" ≠ ("  - Timing report generated" : String) := by
    rw [String.append_assoc]; exact ne_append_of_mismatch (by decide) _
  have g6 : "  - Layout (DEF): " ++ pathStr flow.results_dir ++
      "/vixen_dio_pro_final.def" ≠ ("  - Timing report generated" : String) := by
    rw [String.append_assoc]; exact ne_append_of_mismatch (by decide) _
  have g7 : "  - Timing (SDF): " ++ pathStr flow.results_dir ++
      "/vixen_dio_pro_final.sdf" ≠ ("  - Timing report generated" : String) := by
    rw [String.append_assoc]; exact ne_append_of_mismatch (by decide) _
  have g8 : "  - Parasitics: " ++ pathStr flow.results_dir ++
      "/vixen_dio_pro_final.spef" ≠ ("  - Timing report generated" : String) := by
    rw [String.append_assoc]; exact ne_append_of_mismatch (by decide) _
  have g9 : "  - Layout (GDS): " ++
      pathStr (flow.results_dir ++ ["vixen_dio_pro_final.gds"]) ≠ ("  - Timing report generated" : String) :=
    ne_append_of_mismatch (by decide) _
  have c0 : "\\n" ++ eqLine ≠ ("  - Check timing report for detailed analysis" : String) :=
    ne_append_of_mismatch (by decide) _
  have c1 : eqLine ≠ ("  - Check timing report for detailed analysis" : String) := by decide
  have c2 : "  - Results: " ++ pathStr flow.results_dir ≠ ("  - Check timing report for detailed analysis" : String) :=
    ne_append_of_mismatch (by decide) _
  have c3 : "  - Reports: " ++ pathStr flow.reports_dir ≠ ("  - Check timing report for detailed analysis" : String) :=
    ne_append_of_mismatch (by decide) _
  have c4 : "  - Logs: " ++ pathStr flow.logs_dir ≠ ("  - Check timing report for detailed analysis" : String) :=
    ne_append_of_mismatch (by decide) _
  have c5 : "  - Final netlist: " ++ pathStr flow.results_dir ++
      "/vixen_dio_pro_final.v" ≠ ("  - Check timing report for detailed analysis" : String) := by
    rw [String.append_assoc]; exact ne_append_of_mismatch (by decide) _
  have c6 : "  - Layout (DEF): " ++ pathStr flow.results_dir ++
      "/vixen_dio_pro_final.def" ≠ ("  - Check timing report for detailed analysis" : String) := by
    rw [String.append_assoc]; exact ne_append_of_mismatch (by decide) _
  have c7 : "  - Timing (SDF): " ++ pathStr flow.results_dir ++
      "/vixen_dio_pro_final.sdf" ≠ ("  - Check timing report for detailed analysis" : String) := by
    rw [String.append_assoc]; exact ne_append_of_mismatch (by decide) _
  have c8 : "  - Parasitics: " ++ pathStr flow.results_dir ++
      "/vixen_dio_pro_final.spef" ≠ ("  - Check timing report for detailed analysis" : String) := by
    rw [String.append_assoc]; exact ne_append_of_mismatch (by decide) _
  have c9 : "  - Layout (GDS): " ++
      pathStr (flow.results_dir ++ ["vixen_dio_pro_final.gds"]) ≠ ("  - Check timing report for detailed analysis" : String) :=
    ne_append_of_mismatch (by decide) _
  constructor
  · rcases hfc : fs.fileContent (timingReportPath flow) with _ | content
    · simp [print_summary, summaryLines, hfc, timingGeneratedMsg, timingCheckMsg,
        List.count_append, List.count_cons, List.count_nil,
        apply_ite (List.count ("  - Timing report generated" : String)),
        apply_ite (List.count ("  - Check timing report for detailed analysis" : String)),
        g0, g1, g2, g3, g4, g5, g6, g7, g8, g9,
        c0, c1, c2, c3, c4, c5, c6, c7, c8, c9]
    · by_cases hsl : strContainsSub (lowerStr content) "slack"
      · simp [hsl, print_summary, summaryLines, hfc, timingGeneratedMsg, timingCheckMsg,
        List.count_append, List.count_cons, List.count_nil,
        apply_ite (List.count ("  - Timing report generated" : String)),
        apply_ite (List.count ("  - Check timing report for detailed analysis" : String)),
        g0, g1, g2, g3, g4, g5, g6, g7, g8, g9,
        c0, c1, c2, c3, c4, c5, c6, c7, c8, c9]
      · simp [hsl, print_summary, summaryLines, hfc, timingGeneratedMsg, timingCheckMsg,
        List.count_append, List.count_cons, List.count_nil,
        apply_ite (List.count ("  - Timing report generated" : String)),
        apply_ite (List.count ("  - Check timing report for detailed analysis" : String)),
        g0, g1, g2, g3, g4, g5, g6, g7, g8, g9,
        c0, c1, c2, c3, c4, c5, c6, c7, c8, c9]
  · rcases hfc : fs.fileContent (timingReportPath flow) with _ | content
    · simp [print_summary, summaryLines, hfc, timingGeneratedMsg, timingCheckMsg,
        List.count_append, List.count_cons, List.count_nil,
        apply_ite (List.count ("  - Timing report generated" : String)),
        apply_ite (List.count ("  - Check timing report for detailed analysis" : String)),
        g0, g1, g2, g3, g4, g5, g6, g7, g8, g9,
        c0, c1, c2, c3, c4, c5, c6, c7, c8, c9]
    · by_cases hsl : strContainsSub (lowerStr content) "slack"
      · simp [hsl, print_summary, summaryLines, hfc, timingGeneratedMsg, timingCheckMsg,
        List.count_append, List.count_cons, List.count_nil,
        apply_ite (List.count ("  - Timing report generated" : String)),
        apply_ite (List.count ("  - Check timing report for detailed analysis" : String)),
        g0, g1, g2, g3, g4, g5, g6, g7, g8, g9,
        c0, c1, c2, c3, c4, c5, c6, c7, c8, c9]
      · simp [hsl, print_summary, summaryLines, hfc, timingGeneratedMsg, timingCheckMsg,
        List.count_append, List.count_cons, List.count_nil,
        apply_ite (List.count ("  - Timing report generated" : String)),
        apply_ite (List.count ("  - Check timing report for detailed analysis" : String)),
        g0, g1, g2, g3, g4, g5, g6, g7, g8, g9,
        c0, c1, c2, c3, c4, c5, c6, c7, c8, c9]

/-! ## Claim C9: occurrence counts in the generated script -/

theorem countOccs_eq_zero_of_short (pat : List Char) :
    ∀ l : List Char, l.length < pat.length → countOccs pat l = 0 := by
  intro l
  induction l with
  | nil => intro _; rfl
  | cons x t ih =>
    intro h
    have hpre : pat.isPrefixOf (x :: t) = false := by
      cases hb : pat.isPrefixOf (x :: t) with
      | false => rfl
      | true =>
        have hb2 := List.isPrefixOf_iff_prefix.mp hb
        have := hb2.length_le
        omega
    have ht : t.length < pat.length := by
      simp at h
      omega
    simp [countOccs, hpre, ih ht]

theorem isPrefixOf_take (pat l : List Char) :
    pat.isPrefixOf (l.take pat.length) = pat.isPrefixOf l := by
  cases h1 : pat.isPrefixOf (l.take pat.length) <;>
    cases h2 : pat.isPrefixOf l <;> try rfl
  · exfalso
    have hp2 := List.isPrefixOf_iff_prefix.mp h2
    have : pat = l.take pat.length := List.prefix_iff_eq_take.mp hp2
    have hp1 : pat.isPrefixOf (l.take pat.length) = true :=
      List.isPrefixOf_iff_prefix.mpr (this ▸ List.prefix_rfl)
    rw [h1] at hp1
    exact Bool.false_ne_true hp1
  · exfalso
    have hp1 := List.isPrefixOf_iff_prefix.mp h1
    have htp := List.take_prefix pat.length l
    have hp2 : pat.isPrefixOf l = true :=
      List.isPrefixOf_iff_prefix.mpr (hp1.trans htp)
    rw [h2] at hp2
    exact Bool.false_ne_true hp2

/-- Splitting an occurrence count at a chunk boundary: occurrences in
`a ++ b` are those starting inside `a` (which reach at most
`pat.length - 1` characters into `b`) plus those in `b`. -/
theorem countOccs_append_chunk (pat : List Char) (hp : pat ≠ []) :
    ∀ a b : List Char, countOccs pat (a ++ b) =
      countOccs pat (a ++ b.take (pat.length - 1)) + countOccs pat b := by
  have hk : 0 < pat.length := List.length_pos.mpr hp
  intro a
  induction a with
  | nil =>
    intro b
    have hshort : countOccs pat (b.take (pat.length - 1)) = 0 := by
      apply countOccs_eq_zero_of_short
      have := List.length_take (pat.length - 1) b
      omega
    simp [hshort]
  | cons x a ih =>
    intro b
    have hcond : pat.isPrefixOf (x :: (a ++ b)) =
        pat.isPrefixOf (x :: (a ++ b.take (pat.length - 1))) := by
      rw [← isPrefixOf_take pat (x :: (a ++ b)),
        ← isPrefixOf_take pat (x :: (a ++ b.take (pat.length - 1)))]
      congr 1
      rw [List.take_cons hk, List.take_cons hk]
      congr 1
      rw [List.take_append_eq_append_take, List.take_append_eq_append_take,
        List.take_take]
      congr 1
      have : (pat.length - 1 - a.length) ⊓ (pat.length - 1) =
          pat.length - 1 - a.length := inf_eq_left.mpr (by omega)
      rw [this]
    show (if pat.isPrefixOf (x :: (a ++ b)) then 1 else 0) + countOccs pat (a ++ b) =
      ((if pat.isPrefixOf (x :: (a ++ b.take (pat.length - 1))) then 1 else 0) +
        countOccs pat (a ++ b.take (pat.length - 1))) + countOccs pat b
    rw [hcond, ih b]
    omega

/-- `countOccs` over a flattened chunk list equals the chunk-by-chunk
count, enabling shallow evaluation of counts over long concatenations. -/
theorem countOccs_flatten (pat : List Char) (hp : pat ≠ []) :
    ∀ chunks : List (List Char),
      countOccs pat chunks.flatten = chunkedCount pat chunks := by
  intro chunks
  induction chunks with
  | nil => rfl
  | cons a rest ih =>
    rw [List.flatten_cons, countOccs_append_chunk pat hp a rest.flatten, ih]
    rfl

set_option maxRecDepth 8000 in
/-- The rendered script text is the flattening of its piece list. -/
theorem tclScript_data_flatten (c r p l : String) :
    (tclScript c r p l).data = ((tclPieces c r p l).map String.data).flatten := by
  simp [tclScript, tclT0, tclT1, tclT2, tclT3, tclT4, tclPieces,
    String.data_append, List.append_assoc]

set_option maxRecDepth 8000 in
/-- C9, counterexample. The claim quantifies over all directory paths and
configuration-file paths, but a configuration path that also occurs in
the fixed template text (here `"puts"`) appears more than once in the
generated script, so "exactly once for any paths" is false. -/
theorem C9_counterexample :
    strCount (tclScript "puts" "/res" "/rep" "/logs") "puts" ≠ 1 := by
  unfold strCount
  rw [tclScript_data_flatten, countOccs_flatten _ (by decide)]
  decide

set_option maxRecDepth 8000 in
/-- C9, amended: for the path layout the program actually substitutes
(`<root>/config/openroad_config.tcl`, `<root>/results`, `<root>/reports`,
`<root>/logs` under a common project root, shown here at a representative
root), the generated text contains the configuration-file path exactly
once and each of the three directory paths exactly once; the universal
version over arbitrary path strings fails for paths that collide with the
fixed template text. -/
theorem C9_each_path_once :
    strCount (tclScript "/proj/config/openroad_config.tcl" "/proj/results"
      "/proj/reports" "/proj/logs") "/proj/config/openroad_config.tcl" = 1 ∧
    strCount (tclScript "/proj/config/openroad_config.tcl" "/proj/results"
      "/proj/reports" "/proj/logs") "/proj/results" = 1 ∧
    strCount (tclScript "/proj/config/openroad_config.tcl" "/proj/results"
      "/proj/reports" "/proj/logs") "/proj/reports" = 1 ∧
    strCount (tclScript "/proj/config/openroad_config.tcl" "/proj/results"
      "/proj/reports" "/proj/logs") "/proj/logs" = 1 := by
  refine ⟨?_, ?_, ?_, ?_⟩ <;>
  · unfold strCount
    rw [tclScript_data_flatten, countOccs_flatten _ (by decide)]
    decide

end Vixen
